import Mathlib

/-!
Shallow embedding of the token-lifecycle core of `src/server.js`.

The JavaScript state is a `Map<token, {userId, hwid, expires, createdAt}>`
(`tokenStore`) and a `Set<token>` (`blacklistedTokens`).  We model the map
as an association list with JavaScript `Map` semantics (`set` updates in
place or appends, `get` finds the entry, `delete` removes the key) and the
set as a list with `Set.add` semantics (no-op when the element is present).
Times are `Nat` milliseconds.  The random token produced by
`generateToken()` is passed in as an explicit parameter wherever the code
calls it.
-/

set_option autoImplicit false

namespace JX3E

/-- A session record, as stored by `tokenStore.set(token, {...})` in
`src/server.js` (issue handler, lines 165-170).  `hwid` is `Option` because
the code stores `hwid || null`. -/
structure Record where
  userId : String
  hwid : Option String
  expires : Nat
  createdAt : Nat
deriving Repr, DecidableEq

/-- The token store: `Map<token, Record>` modelled as an association list in
insertion order. -/
abbrev Store := List (String × Record)

/-- `tokenStore.get(token)` — JavaScript `Map.get`. -/
def Store.get : Store → String → Option Record
  | [], _ => none
  | p :: rest, t => if p.1 = t then some p.2 else Store.get rest t

/-- `tokenStore.set(token, record)` — JavaScript `Map.set`: replaces the
value in place when the key exists, otherwise appends. -/
def Store.set : Store → String → Record → Store
  | [], t, r => [(t, r)]
  | p :: rest, t, r => if p.1 = t then (t, r) :: rest else p :: Store.set rest t r

/-- `tokenStore.delete(token)` — JavaScript `Map.delete`. -/
def Store.delete : Store → String → Store
  | [], _ => []
  | p :: rest, t => if p.1 = t then Store.delete rest t else p :: Store.delete rest t

/-- `blacklistedTokens.add(token)` — JavaScript `Set.add`: a no-op when the
token is already a member. -/
def addBlacklist (l : List String) (t : String) : List String :=
  if t ∈ l then l else l ++ [t]

/-- The shared mutable state of `src/server.js`: `tokenStore` (line 11) and
`blacklistedTokens` (line 12). -/
structure SState where
  tokenStore : Store
  blacklist : List String
deriving Repr, DecidableEq

/-- `TOKEN_EXPIRY` (line 15): one hour in milliseconds. -/
def TOKEN_EXPIRY : Nat := 3600000

/-- Outcome of the `verifyToken` middleware, viewed as the Authentication
Gate's `check`: the four 401 branches and the success branch that attaches
`req.tokenData`. -/
inductive CheckResult where
  | revoked
  | unknown
  | expired
  | valid (r : Record)
deriving Repr, DecidableEq

/-- `verifyToken` (lines 67-96), after the Bearer-prefix syntactic check:
blacklist first, then store lookup, then wall-clock expiry (which deletes
the record from the store), else success with the record. -/
def verifyToken (now : Nat) (st : SState) (token : String) : CheckResult × SState :=
  if token ∈ st.blacklist then
    (CheckResult.revoked, st)
  else
    match Store.get st.tokenStore token with
    | none => (CheckResult.unknown, st)
    | some tokenData =>
      if now > tokenData.expires then
        (CheckResult.expired, { st with tokenStore := Store.delete st.tokenStore token })
      else
        (CheckResult.valid tokenData, st)

/-- `hwid || null` in the issue handler (line 167): any falsy `hwid` (absent
or the empty string) is stored as `null`. -/
def normalizeHwid : Option String → Option String
  | none => none
  | some h => if h = "" then none else some h

/-- The `POST /auth/token` handler body (lines 151-184): rejects a falsy
`userId` with a 400 before generating anything, otherwise stores a fresh
record under the generated token `g` and returns it.  `none` in the first
component models the 400 `userId is required` response. -/
def issueToken (g : String) (now : Nat) (st : SState) (userId : String)
    (hwid : Option String) : Option String × SState :=
  if userId = "" then
    (none, st)
  else
    let expires := now + TOKEN_EXPIRY
    let record : Record :=
      { userId := userId, hwid := normalizeHwid hwid,
        expires := expires, createdAt := now }
    (some g, { st with tokenStore := Store.set st.tokenStore g record })

/-- The `POST /auth/refresh` handler body (lines 187-221), run after
`verifyToken` has attached `tokenData`: blacklist the old token, delete it
from the store, and store a fresh record (same `userId` and `hwid`) under
the generated token `g`. -/
def refreshToken (g : String) (now : Nat) (st : SState) (oldToken : String)
    (tokenData : Record) : String × SState :=
  let bl := addBlacklist st.blacklist oldToken
  let store1 := Store.delete st.tokenStore oldToken
  let expires := now + TOKEN_EXPIRY
  let record : Record :=
    { userId := tokenData.userId, hwid := tokenData.hwid,
      expires := expires, createdAt := now }
  (g, { tokenStore := Store.set store1 g record, blacklist := bl })

/-- The `POST /auth/revoke` handler body (lines 224-244), run after
`verifyToken` succeeded: add to blacklist, remove from storage. -/
def revokeToken (st : SState) (token : String) : SState :=
  { tokenStore := Store.delete st.tokenStore token,
    blacklist := addBlacklist st.blacklist token }

/-- The loop of `cleanupExpiredTokens` (lines 125-130): iterate the entries,
deleting each one whose `expires` lies strictly in the past and counting the
deletions. -/
def cleanupRun (now : Nat) : List (String × Record) → Store → Nat → Store × Nat
  | [], store, cleaned => (store, cleaned)
  | p :: rest, store, cleaned =>
    if now > p.2.expires then
      cleanupRun now rest (Store.delete store p.1) (cleaned + 1)
    else
      cleanupRun now rest store cleaned

/-- `cleanupExpiredTokens` (lines 121-135): one Reclaimer run over the live
store, returning the new state and the `cleaned` count. -/
def cleanupExpiredTokens (now : Nat) (st : SState) : SState × Nat :=
  let res := cleanupRun now st.tokenStore st.tokenStore 0
  ({ st with tokenStore := res.1 }, res.2)

/-- One externally triggered operation on the shared state, as dispatched by
the Express routes: token issue, gated refresh, gated revoke, a bare
`verifyToken` check, and the periodic Reclaimer sweep. -/
inductive Op where
  | issue (g : String) (now : Nat) (userId : String) (hwid : Option String)
  | refresh (g : String) (now : Nat) (token : String)
  | revoke (now : Nat) (token : String)
  | check (now : Nat) (token : String)
  | sweep (now : Nat)

/-- State transition of one operation.  `refresh` and `revoke` run behind
the `verifyToken` middleware, so their handler bodies execute only when the
gate answers `valid`; in every other case the state is whatever the gate
left behind. -/
def applyOp (st : SState) : Op → SState
  | Op.issue g now userId hwid => (issueToken g now st userId hwid).2
  | Op.refresh g now token =>
    match verifyToken now st token with
    | (CheckResult.valid r, st1) => (refreshToken g now st1 token r).2
    | (_, st1) => st1
  | Op.revoke now token =>
    match verifyToken now st token with
    | (CheckResult.valid _, st1) => revokeToken st1 token
    | (_, st1) => st1
  | Op.check now token => (verifyToken now st token).2
  | Op.sweep now => (cleanupExpiredTokens now st).1

/-- A whole trace of operations, applied left to right. -/
def applyOps (st : SState) (ops : List Op) : SState :=
  ops.foldl applyOp st

/-! ### Association-list and blacklist lemmas -/

theorem Store.get_set_self (s : Store) (t : String) (r : Record) :
    Store.get (Store.set s t r) t = some r := by
  induction s with
  | nil => simp [Store.set, Store.get]
  | cons p rest ih =>
    by_cases h : p.1 = t
    · simp [Store.set, h, Store.get]
    · simp [Store.set, h, Store.get, ih]

theorem Store.get_set_ne (s : Store) (t u : String) (r : Record) (h : u ≠ t) :
    Store.get (Store.set s t r) u = Store.get s u := by
  induction s with
  | nil => simp [Store.set, Store.get, Ne.symm h]
  | cons p rest ih =>
    by_cases hp : p.1 = t
    · simp [Store.set, if_pos hp, Store.get, hp, Ne.symm h]
    · simp [Store.set, if_neg hp, Store.get, ih]

theorem Store.get_delete_self (s : Store) (t : String) :
    Store.get (Store.delete s t) t = none := by
  induction s with
  | nil => simp [Store.delete, Store.get]
  | cons p rest ih =>
    by_cases h : p.1 = t
    · simp [Store.delete, h, ih]
    · simp [Store.delete, h, Store.get, ih]

theorem Store.get_delete_ne (s : Store) (t u : String) (h : u ≠ t) :
    Store.get (Store.delete s t) u = Store.get s u := by
  induction s with
  | nil => simp [Store.delete]
  | cons p rest ih =>
    by_cases hp : p.1 = t
    · simp [Store.delete, if_pos hp, Store.get, hp, Ne.symm h, ih]
    · simp [Store.delete, if_neg hp, Store.get, ih]

theorem Store.delete_delete (s : Store) (t : String) :
    Store.delete (Store.delete s t) t = Store.delete s t := by
  induction s with
  | nil => simp [Store.delete]
  | cons p rest ih =>
    by_cases h : p.1 = t
    · simp [Store.delete, h, ih]
    · simp [Store.delete, h, ih]

theorem Store.mem_of_mem_delete {s : Store} {t : String} {q : String × Record}
    (h : q ∈ Store.delete s t) : q ∈ s := by
  induction s with
  | nil => simp [Store.delete] at h
  | cons p rest ih =>
    by_cases hp : p.1 = t
    · simp only [Store.delete, if_pos hp] at h
      exact List.mem_cons_of_mem p (ih h)
    · simp only [Store.delete, if_neg hp, List.mem_cons] at h
      rcases h with h | h
      · exact h ▸ List.mem_cons_self p rest
      · exact List.mem_cons_of_mem p (ih h)

theorem mem_addBlacklist (l : List String) (t u : String) :
    u ∈ addBlacklist l t ↔ u ∈ l ∨ u = t := by
  unfold addBlacklist
  by_cases h : t ∈ l
  · simp only [if_pos h]
    constructor
    · exact Or.inl
    · rintro (hu | rfl)
      · exact hu
      · exact h
  · simp [if_neg h]

theorem self_mem_addBlacklist (l : List String) (t : String) :
    t ∈ addBlacklist l t := by
  rw [mem_addBlacklist]
  exact Or.inr rfl

theorem addBlacklist_mono (l : List String) (t : String) :
    ∀ u, u ∈ l → u ∈ addBlacklist l t := by
  intro u hu
  rw [mem_addBlacklist]
  exact Or.inl hu

theorem addBlacklist_idem (l : List String) (t : String) :
    addBlacklist (addBlacklist l t) t = addBlacklist l t := by
  unfold addBlacklist
  by_cases h : t ∈ l
  · simp [if_pos h]
  · simp [if_neg h]

/-- `verifyToken` never touches the blacklist, whatever branch it takes. -/
theorem verifyToken_blacklist (now : Nat) (st : SState) (t : String) :
    ((verifyToken now st t).2).blacklist = st.blacklist := by
  unfold verifyToken
  by_cases hb : t ∈ st.blacklist
  · simp [if_pos hb]
  · cases hg : Store.get st.tokenStore t with
    | none => simp [if_neg hb, hg]
    | some r =>
      by_cases he : now > r.expires
      · simp [if_neg hb, hg, if_pos he]
      · simp [if_neg hb, hg, if_neg he]

/-- The empty string, the falsy `userId`/`hwid` payload value. -/
def emptyString : String := ""

/-- The issue handler never touches the blacklist. -/
theorem issueToken_blacklist (g : String) (now : Nat) (st : SState) (userId : String)
    (hwid : Option String) :
    ((issueToken g now st userId hwid).2).blacklist = st.blacklist := by
  unfold issueToken
  by_cases h : userId = ""
  · simp [if_pos h]
  · simp [if_neg h]

/-- A non-falsy `hwid` survives `hwid || null` unchanged. -/
theorem normalizeHwid_eq (hwid : Option String) (h : hwid ≠ some emptyString) :
    normalizeHwid hwid = hwid := by
  cases hwid with
  | none => rfl
  | some s =>
    have hs : ¬ s = "" := by
      intro hs
      apply h
      rw [hs]
      rfl
    simp [normalizeHwid, hs]

/-! ### Concrete fixtures used by witnesses and counterexamples -/

def tokT : String := "t"

def tokG : String := "g"

def tokX : String := "x"

def subjU : String := "u"

def tagD : String := "d"

def exRec : Record := { userId := subjU, hwid := some tagD, expires := 100, createdAt := 0 }

def exSt : SState := { tokenStore := [(tokT, exRec)], blacklist := [] }

def exStB : SState := { tokenStore := [(tokT, exRec)], blacklist := [tokT] }

def exStG : SState := { tokenStore := [(tokT, exRec)], blacklist := [tokG] }

def exEmpty : SState := { tokenStore := [], blacklist := [] }

def exOps : List Op :=
  [Op.issue tokG 3 subjU none, Op.sweep 300, Op.check 3 tokT,
   Op.refresh tokX 3 tokG, Op.revoke 3 tokX]

def recA : Record := { userId := subjU, hwid := none, expires := 10, createdAt := 0 }

def recB : Record := { userId := subjU, hwid := none, expires := 100, createdAt := 0 }

def recC : Record := { userId := subjU, hwid := none, expires := 5, createdAt := 0 }

def exStSweep : SState :=
  { tokenStore := [(tokT, recA), (tokG, recB), (tokX, recC)], blacklist := [tokT] }

/-! ### Claims -/

/-- C1: `verifyToken` decides in exactly this order: blacklist membership
first (`revoked`, state untouched), then store lookup (`unknown` when
absent), then the wall-clock expiry test (`expired`, with the record
deleted from the store), else `valid` with the stored record; in
particular a token that is both blacklisted and past its expiry reports
`revoked`. -/
theorem check_decision_order (now : Nat) (st : SState) (t : String) :
    (t ∈ st.blacklist → verifyToken now st t = (CheckResult.revoked, st)) ∧
    (t ∉ st.blacklist → Store.get st.tokenStore t = none →
      verifyToken now st t = (CheckResult.unknown, st)) ∧
    (∀ r : Record, t ∉ st.blacklist → Store.get st.tokenStore t = some r →
      now > r.expires →
      verifyToken now st t =
        (CheckResult.expired, { st with tokenStore := Store.delete st.tokenStore t })) ∧
    (∀ r : Record, t ∉ st.blacklist → Store.get st.tokenStore t = some r →
      ¬ now > r.expires →
      verifyToken now st t = (CheckResult.valid r, st)) ∧
    (∀ r : Record, t ∈ st.blacklist → Store.get st.tokenStore t = some r →
      now > r.expires → (verifyToken now st t).1 = CheckResult.revoked) := by
  refine ⟨?_, ?_, ?_, ?_, ?_⟩
  · intro hb
    simp [verifyToken, hb]
  · intro hb hg
    simp [verifyToken, hb, hg]
  · intro r hb hg he
    simp [verifyToken, hb, hg, he]
  · intro r hb hg he
    simp [verifyToken, hb, hg, he]
  · intro r hb _ _
    simp [verifyToken, hb]

/-- C1 witness: in a state where the presented token is blacklisted and its
record is past expiry, the gate answers `revoked`. -/
theorem check_decision_order_witness :
    (verifyToken 200 exStB tokT).1 = CheckResult.revoked :=
  (check_decision_order 200 exStB tokT).2.2.2.2 exRec (by decide) (by decide) (by decide)

/-- C5 (amended): `unknown` and `revoked` are stable under an immediate
re-check, but a check that answers `expired` deletes the record, so the
immediate re-check answers `unknown` instead of `expired`. -/
theorem denial_recheck (now : Nat) (st : SState) (t : String) :
    ((verifyToken now st t).1 = CheckResult.unknown →
      (verifyToken now ((verifyToken now st t).2) t).1 = CheckResult.unknown) ∧
    ((verifyToken now st t).1 = CheckResult.revoked →
      (verifyToken now ((verifyToken now st t).2) t).1 = CheckResult.revoked) ∧
    ((verifyToken now st t).1 = CheckResult.expired →
      (verifyToken now ((verifyToken now st t).2) t).1 = CheckResult.unknown) := by
  by_cases hb : t ∈ st.blacklist
  · refine ⟨?_, ?_, ?_⟩ <;> intro h1 <;> simp [verifyToken, hb] at h1 ⊢
  · cases hg : Store.get st.tokenStore t with
    | none =>
      refine ⟨?_, ?_, ?_⟩ <;> intro h1 <;> simp [verifyToken, hb, hg] at h1 ⊢
    | some r =>
      by_cases he : now > r.expires
      · refine ⟨?_, ?_, ?_⟩ <;> intro h1
        · simp [verifyToken, hb, hg, he] at h1
        · simp [verifyToken, hb, hg, he] at h1
        · simp [verifyToken, hb, hg, he, Store.get_delete_self]
      · refine ⟨?_, ?_, ?_⟩ <;> intro h1 <;> simp [verifyToken, hb, hg, he] at h1

/-- C5 counterexample: on an expired record the first check answers
`expired` but the immediate re-check answers `unknown`, so denial outcomes
are not all stable. -/
theorem denial_recheck_counterexample :
    (verifyToken 200 exSt tokT).1 = CheckResult.expired ∧
    (verifyToken 200 ((verifyToken 200 exSt tokT).2) tokT).1 = CheckResult.unknown ∧
    CheckResult.unknown ≠ CheckResult.expired := by decide

/-- C5 witness: a revoked denial is stable under immediate re-check. -/
theorem denial_recheck_witness :
    (verifyToken 200 ((verifyToken 200 exStB tokT).2) tokT).1 = CheckResult.revoked :=
  (denial_recheck 200 exStB tokT).2.1 (by decide)

/-- C8 (amended): `verifyToken` never writes the blacklist and leaves the
whole state untouched on the `revoked`, `unknown` and `valid` outcomes; on
the `expired` outcome it performs exactly one write, deleting the presented
token's record, and every other token's record is untouched. -/
theorem check_frame (now : Nat) (st : SState) (t : String) :
    ((verifyToken now st t).2).blacklist = st.blacklist ∧
    ((verifyToken now st t).1 ≠ CheckResult.expired → (verifyToken now st t).2 = st) ∧
    ((verifyToken now st t).1 = CheckResult.expired →
      ((verifyToken now st t).2).tokenStore = Store.delete st.tokenStore t ∧
      ∀ u : String, u ≠ t →
        Store.get ((verifyToken now st t).2).tokenStore u = Store.get st.tokenStore u) := by
  refine ⟨verifyToken_blacklist now st t, ?_, ?_⟩
  · intro h1
    by_cases hb : t ∈ st.blacklist
    · simp [verifyToken, hb]
    · cases hg : Store.get st.tokenStore t with
      | none => simp [verifyToken, hb, hg]
      | some r =>
        by_cases he : now > r.expires
        · simp [verifyToken, hb, hg, he] at h1
        · simp [verifyToken, hb, hg, he]
  · intro h1
    by_cases hb : t ∈ st.blacklist
    · simp [verifyToken, hb] at h1
    · cases hg : Store.get st.tokenStore t with
      | none => simp [verifyToken, hb, hg] at h1
      | some r =>
        by_cases he : now > r.expires
        · constructor
          · simp [verifyToken, hb, hg, he]
          · intro u hu
            simp [verifyToken, hb, hg, he, Store.get_delete_ne _ _ _ hu]
        · simp [verifyToken, hb, hg, he] at h1

/-- C8 counterexample: on an expired record the gate does write — the
post-check state differs from the pre-check state, the presented token's
record having been deleted. -/
theorem check_frame_counterexample :
    (verifyToken 200 exSt tokT).2 ≠ exSt ∧
    Store.get ((verifyToken 200 exSt tokT).2).tokenStore tokT ≠
      Store.get exSt.tokenStore tokT := by decide

/-- C8 witness: on a `valid` outcome the state is untouched. -/
theorem check_frame_witness :
    (verifyToken 0 exSt tokT).2 = exSt :=
  (check_frame 0 exSt tokT).2.1 (by decide)

/-- C9: the revoke effect (blacklist-add plus store-delete) is idempotent —
running it twice on the same token yields exactly the state after running
it once. -/
theorem revoke_idempotent (st : SState) (t : String) :
    revokeToken (revokeToken st t) t = revokeToken st t := by
  unfold revokeToken
  simp [Store.delete_delete, addBlacklist_idem]

/-- C10: revoke and refresh are per-token local — any token other than the
presented one (and, for refresh, other than the newly minted one) keeps its
store record and its blacklist membership, and both operations only ever
grow the blacklist. -/
theorem revoke_refresh_frame (st : SState) (t g : String) (now : Nat) (r : Record)
    (u : String) (hu : u ≠ t) (hg : u ≠ g) :
    Store.get ((revokeToken st t).tokenStore) u = Store.get st.tokenStore u ∧
    (u ∈ (revokeToken st t).blacklist ↔ u ∈ st.blacklist) ∧
    Store.get (((refreshToken g now st t r).2).tokenStore) u = Store.get st.tokenStore u ∧
    (u ∈ ((refreshToken g now st t r).2).blacklist ↔ u ∈ st.blacklist) ∧
    (∀ v : String, v ∈ st.blacklist → v ∈ (revokeToken st t).blacklist) ∧
    (∀ v : String, v ∈ st.blacklist → v ∈ ((refreshToken g now st t r).2).blacklist) := by
  refine ⟨?_, ?_, ?_, ?_, ?_, ?_⟩
  · simp [revokeToken, Store.get_delete_ne _ _ _ hu]
  · simp [revokeToken, mem_addBlacklist, hu]
  · simp [refreshToken, Store.get_set_ne _ _ _ _ hg, Store.get_delete_ne _ _ _ hu]
  · simp [refreshToken, mem_addBlacklist, hu]
  · intro v hv
    simp [revokeToken]
    exact addBlacklist_mono _ _ v hv
  · intro v hv
    simp [refreshToken]
    exact addBlacklist_mono _ _ v hv

/-- C10 witness: a bystander token's record is untouched by revoke. -/
theorem revoke_refresh_frame_witness :
    Store.get ((revokeToken exSt tokT).tokenStore) tokX = Store.get exSt.tokenStore tokX :=
  (revoke_refresh_frame exSt tokT tokG 0 exRec tokX (by decide) (by decide)).1

/-- C2 (amended): refreshing a token that passes the gate blacklists it,
deletes its record, and installs a record with the same `userId` and `hwid`
under the new token; afterwards the old token checks `revoked` and the new
one checks `valid` with that record — provided the freshly generated token
differs from the old one and is not itself already blacklisted. -/
theorem refresh_ok (g : String) (now : Nat) (st : SState) (t : String) (r : Record)
    (hgate : verifyToken now st t = (CheckResult.valid r, st))
    (hne : g ≠ t) (hfresh : g ∉ st.blacklist) :
    (refreshToken g now st t r).1 ≠ t ∧
    t ∈ ((refreshToken g now st t r).2).blacklist ∧
    Store.get ((refreshToken g now st t r).2).tokenStore t = none ∧
    Store.get ((refreshToken g now st t r).2).tokenStore ((refreshToken g now st t r).1) =
      some ({ userId := r.userId, hwid := r.hwid,
              expires := now + TOKEN_EXPIRY, createdAt := now }) ∧
    (verifyToken now ((refreshToken g now st t r).2) t).1 = CheckResult.revoked ∧
    verifyToken now ((refreshToken g now st t r).2) g =
      (CheckResult.valid ({ userId := r.userId, hwid := r.hwid,
                            expires := now + TOKEN_EXPIRY, createdAt := now }),
        (refreshToken g now st t r).2) := by
  have hmem : t ∈ addBlacklist st.blacklist t := self_mem_addBlacklist _ _
  have hgmem : g ∉ addBlacklist st.blacklist t := by
    rw [mem_addBlacklist]
    push_neg
    exact ⟨hfresh, hne⟩
  have hlt : ¬ now > now + TOKEN_EXPIRY := by omega
  refine ⟨?_, ?_, ?_, ?_, ?_, ?_⟩
  · simp [refreshToken]
    exact hne
  · simp [refreshToken, hmem]
  · simp [refreshToken, Store.get_set_ne _ _ _ _ (Ne.symm hne), Store.get_delete_self]
  · simp [refreshToken, Store.get_set_self]
  · simp [verifyToken, refreshToken, hmem]
  · simp [verifyToken, refreshToken, hgmem, Store.get_set_self, hlt]

/-- C2 counterexample: the claim as stated fails when the generator output
collides with an already blacklisted token — the gate accepted the old
token, the new token differs from it, yet the post-refresh check of the new
token answers `revoked`, not `valid`. -/
theorem refresh_ok_counterexample :
    verifyToken 50 exStG tokT = (CheckResult.valid exRec, exStG) ∧
    tokG ≠ tokT ∧
    (verifyToken 50 ((refreshToken tokG 50 exStG tokT exRec).2) tokG).1 =
      CheckResult.revoked := by decide

/-- C2 witness: a concrete refresh after which the old token is revoked. -/
theorem refresh_ok_witness :
    (verifyToken 50 ((refreshToken tokG 50 exSt tokT exRec).2) tokT).1 =
      CheckResult.revoked :=
  (refresh_ok tokG 50 exSt tokT exRec (by decide) (by decide) (by decide)).2.2.2.2.1

/-- C4 (amended): checking the token returned by a successful issue, at the
issuing instant, answers `valid` with exactly the supplied `userId` and
`hwid` — provided the generated token is not already blacklisted and the
supplied `hwid` is not the empty string (a falsy `hwid` is stored as
`null`). -/
theorem issue_then_check (g : String) (now : Nat) (st : SState) (userId : String)
    (hwid : Option String) (huid : userId ≠ "") (hhw : hwid ≠ some emptyString)
    (hfresh : g ∉ st.blacklist) :
    (issueToken g now st userId hwid).1 = some g ∧
    verifyToken now ((issueToken g now st userId hwid).2) g =
      (CheckResult.valid ({ userId := userId, hwid := hwid,
                            expires := now + TOKEN_EXPIRY, createdAt := now }),
        (issueToken g now st userId hwid).2) := by
  have hrec : normalizeHwid hwid = hwid := normalizeHwid_eq hwid hhw
  have hlt : ¬ now > now + TOKEN_EXPIRY := by omega
  constructor
  · simp [issueToken, huid]
  · simp [verifyToken, issueToken, huid, hfresh, Store.get_set_self, hlt, hrec]

/-- C4 counterexample: the claim as stated fails in two concrete ways — a
generated token that is already blacklisted makes the immediate check
answer `revoked`, and an empty-string `hwid` is stored as `null`, not as
the supplied value. -/
theorem issue_then_check_counterexample :
    (verifyToken 0 ((issueToken tokG 0 exStG subjU none).2) tokG).1 =
      CheckResult.revoked ∧
    Store.get ((issueToken tokG 0 exEmpty subjU (some emptyString)).2).tokenStore tokG =
      some ({ userId := subjU, hwid := none, expires := TOKEN_EXPIRY, createdAt := 0 }) ∧
    some emptyString ≠ (none : Option String) := by decide

/-- C4 witness: a concrete issue-then-check that answers `valid` with the
supplied data. -/
theorem issue_then_check_witness :
    (issueToken tokG 5 exEmpty subjU (some tagD)).1 = some tokG :=
  (issue_then_check tokG 5 exEmpty subjU (some tagD) (by decide) (by decide)
    (by decide)).1

/-- C7: issuance fails exactly when `userId` is empty, and then the state is
untouched and no token is returned; for a non-empty `userId` it returns the
generated token, stores under it a record expiring one hour after `now`,
and touches no other store key and not the blacklist. -/
theorem issue_invalid_input (g : String) (now : Nat) (st : SState) (userId : String)
    (hwid : Option String) :
    ((issueToken g now st userId hwid).1 = none ↔ userId = "") ∧
    (userId = "" → (issueToken g now st userId hwid).2 = st) ∧
    (userId ≠ "" →
      (issueToken g now st userId hwid).1 = some g ∧
      Store.get ((issueToken g now st userId hwid).2).tokenStore g =
        some ({ userId := userId, hwid := normalizeHwid hwid,
                expires := now + TOKEN_EXPIRY, createdAt := now }) ∧
      (∀ u : String, u ≠ g →
        Store.get ((issueToken g now st userId hwid).2).tokenStore u =
          Store.get st.tokenStore u) ∧
      ((issueToken g now st userId hwid).2).blacklist = st.blacklist) := by
  refine ⟨?_, ?_, ?_⟩
  · by_cases h : userId = ""
    · simp [issueToken, h]
    · simp [issueToken, h]
  · intro h
    simp [issueToken, h]
  · intro h
    refine ⟨?_, ?_, ?_, ?_⟩
    · simp [issueToken, h]
    · simp [issueToken, h, Store.get_set_self]
    · intro u hu
      simp [issueToken, h, Store.get_set_ne _ _ _ _ hu]
    · exact issueToken_blacklist g now st userId hwid

/-- C7 witness: issuing with an empty `userId` returns no token and leaves
the state untouched. -/
theorem issue_invalid_input_witness :
    (issueToken tokG 0 exEmpty emptyString none).1 = none ∧
    (issueToken tokG 0 exEmpty emptyString none).2 = exEmpty :=
  ⟨((issue_invalid_input tokG 0 exEmpty emptyString none).1).mpr rfl,
    (issue_invalid_input tokG 0 exEmpty emptyString none).2.1 rfl⟩

/-- The Reclaimer never touches the blacklist. -/
theorem cleanupExpiredTokens_blacklist (now : Nat) (st : SState) :
    (((cleanupExpiredTokens now st).1)).blacklist = st.blacklist := rfl

/-- Every single operation only ever grows the blacklist. -/
theorem applyOp_blacklist_mono (st : SState) (op : Op) (v : String)
    (hv : v ∈ st.blacklist) : v ∈ (applyOp st op).blacklist := by
  cases op with
  | issue g now userId hwid =>
    simp only [applyOp]
    rw [issueToken_blacklist]
    exact hv
  | refresh g now token =>
    have hbl := verifyToken_blacklist now st token
    rcases hvt : verifyToken now st token with ⟨res, st1⟩
    rw [hvt] at hbl
    have hv1 : v ∈ st1.blacklist := by
      rw [hbl]
      exact hv
    cases res with
    | valid r =>
      simp only [applyOp, hvt, refreshToken]
      exact addBlacklist_mono _ _ v hv1
    | revoked =>
      simp only [applyOp, hvt]
      exact hv1
    | unknown =>
      simp only [applyOp, hvt]
      exact hv1
    | expired =>
      simp only [applyOp, hvt]
      exact hv1
  | revoke now token =>
    have hbl := verifyToken_blacklist now st token
    rcases hvt : verifyToken now st token with ⟨res, st1⟩
    rw [hvt] at hbl
    have hv1 : v ∈ st1.blacklist := by
      rw [hbl]
      exact hv
    cases res with
    | valid r =>
      simp only [applyOp, hvt, revokeToken]
      exact addBlacklist_mono _ _ v hv1
    | revoked =>
      simp only [applyOp, hvt]
      exact hv1
    | unknown =>
      simp only [applyOp, hvt]
      exact hv1
    | expired =>
      simp only [applyOp, hvt]
      exact hv1
  | check now token =>
    simp only [applyOp]
    rw [verifyToken_blacklist]
    exact hv
  | sweep now =>
    simp only [applyOp]
    rw [cleanupExpiredTokens_blacklist]
    exact hv

/-- Whole traces only ever grow the blacklist. -/
theorem applyOps_blacklist_mono (ops : List Op) :
    ∀ (st : SState) (v : String), v ∈ st.blacklist → v ∈ (applyOps st ops).blacklist := by
  induction ops with
  | nil =>
    intro st v hv
    simpa [applyOps] using hv
  | cons op rest ih =>
    intro st v hv
    simp only [applyOps, List.foldl_cons]
    exact ih (applyOp st op) v (applyOp_blacklist_mono st op v hv)

/-- C3: once a token is blacklisted, every state reachable by any sequence
of issue, refresh, revoke, check and Reclaimer-sweep operations still has
it blacklisted and checks it as `revoked`; indeed no operation ever removes
any token from the blacklist. -/
theorem revoked_forever (st : SState) (t : String) (h : t ∈ st.blacklist)
    (ops : List Op) (now : Nat) :
    t ∈ (applyOps st ops).blacklist ∧
    (verifyToken now (applyOps st ops) t).1 = CheckResult.revoked ∧
    ∀ (st2 : SState) (op : Op) (v : String),
      v ∈ st2.blacklist → v ∈ (applyOp st2 op).blacklist := by
  have hm := applyOps_blacklist_mono ops st t h
  refine ⟨hm, ?_, fun st2 op v hv => applyOp_blacklist_mono st2 op v hv⟩
  simp [verifyToken, hm]

/-- C3 witness: after a concrete trace of all five operation kinds, a
blacklisted token still checks `revoked`. -/
theorem revoked_forever_witness :
    (verifyToken 7 (applyOps exStB exOps) tokT).1 = CheckResult.revoked :=
  (revoked_forever exStB tokT (by decide) exOps 7).2.1

/-! ### The Reclaimer sweep -/

theorem Store.delete_eq_filter (s : Store) (t : String) :
    Store.delete s t = s.filter (fun q => decide (¬ q.1 = t)) := by
  induction s with
  | nil => rfl
  | cons p rest ih =>
    by_cases h : p.1 = t
    · simp [Store.delete, h, ih]
    · simp [Store.delete, h, ih]

/-- The sweep loop's counter adds one per snapshot entry past expiry. -/
theorem cleanupRun_count (now : Nat) :
    ∀ (l : List (String × Record)) (s : Store) (c : Nat),
      (cleanupRun now l s c).2 = c + l.countP (fun p => decide (now > p.2.expires)) := by
  intro l
  induction l with
  | nil =>
    intro s c
    simp [cleanupRun]
  | cons p rest ih =>
    intro s c
    by_cases h : now > p.2.expires
    · simp [cleanupRun, h, ih, List.countP_cons]
      omega
    · simp [cleanupRun, h, ih, List.countP_cons]

/-- The sweep loop's deletions amount to filtering out of the live store
every entry whose key is held by an expired snapshot entry, as long as the
snapshot agrees with the store on shared keys. -/
theorem cleanupRun_store (now : Nat) :
    ∀ (l : List (String × Record)) (s : Store) (c : Nat),
      (∀ p, p ∈ l → ∀ q, q ∈ s → p.1 = q.1 → p.2 = q.2) →
      (cleanupRun now l s c).1 =
        s.filter (fun q =>
          decide (¬ (now > q.2.expires ∧ q.1 ∈ l.map Prod.fst))) := by
  intro l
  induction l with
  | nil =>
    intro s c _
    simp [cleanupRun]
  | cons p rest ih =>
    intro s c hsub
    have hhead : ∀ q, q ∈ s → q.1 = p.1 → q.2 = p.2 := by
      intro q hq hk
      exact (hsub p (List.mem_cons_self p rest) q hq hk.symm).symm
    by_cases he : now > p.2.expires
    · have hstep : cleanupRun now (p :: rest) s c =
          cleanupRun now rest (Store.delete s p.1) (c + 1) := by
        simp [cleanupRun, he]
      rw [hstep]
      rw [ih (Store.delete s p.1) (c + 1) ?_]
      · rw [Store.delete_eq_filter, List.filter_filter]
        apply List.filter_congr
        intro q hq
        by_cases hk : q.1 = p.1
        · have hq2 : q.2 = p.2 := hhead q hq hk
          simp [hk, hq2, he]
        · have hb : (q.1 == p.1) = false := beq_eq_false_iff_ne.mpr hk
          simp [hb, List.mem_cons, hk]
      · intro x hx q hq hxq
        exact hsub x (List.mem_cons_of_mem p hx) q (Store.mem_of_mem_delete hq) hxq
    · have hstep : cleanupRun now (p :: rest) s c = cleanupRun now rest s c := by
        simp [cleanupRun, he]
      rw [hstep]
      rw [ih s c ?_]
      · apply List.filter_congr
        intro q hq
        by_cases hk : q.1 = p.1
        · have hq2 : q.2 = p.2 := hhead q hq hk
          simp [hk, hq2, he]
        · have hb : (q.1 == p.1) = false := beq_eq_false_iff_ne.mpr hk
          simp [hb, List.mem_cons, hk]
      · intro x hx q hq hxq
        exact hsub x (List.mem_cons_of_mem p hx) q hq hxq

/-- C6: one Reclaimer run, on a store whose keys are distinct (as `Map`
keys are), keeps exactly the records not past expiry, deletes exactly the
expired ones, leaves the blacklist untouched, and reports as its reclaimed
count exactly the number of records it deleted. -/
theorem cleanup_spec (now : Nat) (st : SState)
    (hnd : ((st.tokenStore).map Prod.fst).Nodup) :
    ((cleanupExpiredTokens now st).1).tokenStore =
      st.tokenStore.filter (fun q => decide (¬ now > q.2.expires)) ∧
    ((cleanupExpiredTokens now st).1).blacklist = st.blacklist ∧
    (cleanupExpiredTokens now st).2 =
      st.tokenStore.countP (fun q => decide (now > q.2.expires)) ∧
    st.tokenStore.length =
      ((cleanupExpiredTokens now st).1).tokenStore.length +
        (cleanupExpiredTokens now st).2 := by
  have hsub : ∀ p, p ∈ st.tokenStore → ∀ q, q ∈ st.tokenStore →
      p.1 = q.1 → p.2 = q.2 := by
    intro p hp q hq hpq
    rw [List.inj_on_of_nodup_map hnd hp hq hpq]
  have hstore : ((cleanupExpiredTokens now st).1).tokenStore =
      st.tokenStore.filter (fun q => decide (¬ now > q.2.expires)) := by
    show (cleanupRun now st.tokenStore st.tokenStore 0).1 = _
    rw [cleanupRun_store now st.tokenStore st.tokenStore 0 hsub]
    apply List.filter_congr
    intro q hq
    have hm : q.1 ∈ st.tokenStore.map Prod.fst := List.mem_map_of_mem Prod.fst hq
    simp [hm]
  have hcount : (cleanupExpiredTokens now st).2 =
      st.tokenStore.countP (fun q => decide (now > q.2.expires)) := by
    show (cleanupRun now st.tokenStore st.tokenStore 0).2 = _
    rw [cleanupRun_count]
    exact Nat.zero_add _
  refine ⟨hstore, rfl, hcount, ?_⟩
  rw [hstore, hcount]
  have hpart : ∀ l : List (String × Record),
      (l.filter (fun q => decide (¬ now > q.2.expires))).length +
        l.countP (fun q => decide (now > q.2.expires)) = l.length := by
    intro l
    induction l with
    | nil => rfl
    | cons p rest ihp =>
      by_cases h : now > p.2.expires
      · have h2 : ¬ now ≤ p.2.expires := by omega
        simp [h, h2, List.countP_cons, List.filter_cons] at ihp ⊢
        omega
      · have h2 : now ≤ p.2.expires := by omega
        simp [h, h2, List.countP_cons, List.filter_cons] at ihp ⊢
        omega
  exact (hpart st.tokenStore).symm

/-- C6 witness: on a concrete three-record store with distinct keys, the
sweep's reclaimed count equals the number of expired records. -/
theorem cleanup_spec_witness :
    (cleanupExpiredTokens 50 exStSweep).2 =
      exStSweep.tokenStore.countP (fun q => decide (50 > q.2.expires)) :=
  (cleanup_spec 50 exStSweep (by decide)).2.2.1

end JX3E
